import Mathlib

/-!
Shallow embedding of the device-I/O shim in `kext/lvm2_osal_iokit.cpp`
(LVM2 partition scheme kernel extension), together with theorems checking
the natural-language specification against it.

Modelling conventions:
* Machine integers are `Nat` with explicit `% 2^w` where C arithmetic can
  wrap; on Darwin LP64, `size_t` is 64-bit, `SSIZE_MAX = 2^63 - 1`,
  `u32` is 32-bit.
* The device's byte stream is a total function `Nat → Nat` (byte at each
  absolute offset); buffers are likewise functions with a separate
  capacity.
* Fallible collaborators (IOMalloc / IOBufferMemoryDescriptor allocation,
  `IOMedia::read`, `IOStorage::open`) are driven by boolean oracles.
* The local variable `count` in `lvm2_device_read` is read before it is
  assigned on the unaligned branch of the source (line 187); its
  indeterminate value is modelled as an explicit parameter `junk_count`.
  Likewise `heapJunk` models the bytes an out-of-bounds read of the
  scratch buffer would see.
-/

set_option autoImplicit false

namespace LVM2

/-- `SSIZE_MAX` on an LP64 Darwin platform (`machine/limits.h`). -/
def SSIZE_MAX : Nat := 2 ^ 63 - 1

/-- `U32_MAX` from `lvm2_types.h`: the largest 32-bit unsigned value. -/
def U32_MAX : Nat := 2 ^ 32 - 1

/-- errno value `EIO` (`sys/errno.h`), the spec's `IoError`. -/
def ioError : Nat := 5

/-- errno value `ENOMEM` (`sys/errno.h`), the spec's `OutOfMemory`. -/
def outOfMemory : Nat := 12

/-- errno value `EACCES` (`sys/errno.h`), the spec's `AccessDenied`. -/
def accessDenied : Nat := 13

/-- errno value `EINVAL` (`sys/errno.h`), the spec's `InvalidBlockSize`. -/
def invalidBlockSize : Nat := 22

/-- errno value `ERANGE` (`sys/errno.h`), the spec's `RangeError`. -/
def rangeError : Nat := 34

/-- `struct lvm2_device`: the open device handle. `block_size` is the
`u32` field; `content` abstracts the byte stream the opened
storage/media pair serves (`media->read` at offset `p` yields
`content p`, `content (p+1)`, ...). -/
structure lvm2_device where
  block_size : Nat
  content : Nat → Nat

/-- Result of one `lvm2_device_read` call, with enough instrumentation to
state the resource-handling claims: final destination-buffer contents,
whether device I/O was attempted, and the scratch buffer's
allocation/release bookkeeping. -/
structure ReadOutcome where
  err : Nat
  dest : Nat → Nat
  slowPath : Bool
  lead_in : Nat
  lead_out : Nat
  aligned_pos : Nat
  aligned_count : Nat
  scratchAllocated : Bool
  scratchReleased : Bool
  ioAttempted : Bool
  copyPerformed : Bool
  copyRes : Nat
  block_size_after : Nat

/-- `lvm2_device_read(dev, in_pos, in_count, in_buf)` from
`lvm2_osal_iokit.cpp` lines 158-239.

* `in_buf_len` is `in_buf->buffer->getLength()` (= the buffer's capacity,
  as created by `lvm2_io_buffer_create`); `init` its prior contents.
* `junk_count` is the indeterminate value of the uninitialized local
  `count` read at line 187 (`aligned_count = lead_in + count + lead_out`).
* `allocOk` decides `IOBufferMemoryDescriptor::withCapacity` for the
  scratch buffer, `readOk` decides `dev->media->read`.
* The slow-path copy is `in_buf->buffer->writeBytes(0,
  buf->getBytesNoCopy(), in_count)` (lines 221-222): source offset `0`
  into the scratch buffer, destination offset `0`, length `in_count`,
  clamped by the destination descriptor's length; its return value is the
  byte count actually transferred (`copyRes`). -/
def lvm2_device_read (dev : lvm2_device) (in_pos in_count in_buf_len : Nat)
    (init : Nat → Nat) (junk_count : Nat) (heapJunk : Nat → Nat)
    (allocOk readOk : Bool) : ReadOutcome :=
  if SSIZE_MAX < in_count then
    { err := rangeError, dest := init, slowPath := false,
      lead_in := 0, lead_out := 0, aligned_pos := 0, aligned_count := 0,
      scratchAllocated := false, scratchReleased := false,
      ioAttempted := false, copyPerformed := false, copyRes := 0,
      block_size_after := dev.block_size }
  else
    let lead_in := in_pos % dev.block_size
    let lead_out := dev.block_size - (lead_in + in_count) % dev.block_size
    if lead_in ≠ 0 ∨ lead_out ≠ 0 ∨ in_count ≠ in_buf_len then
      let aligned_pos := in_pos - lead_in
      let aligned_count := (lead_in + junk_count + lead_out) % 2 ^ 64
      if allocOk = false then
        { err := outOfMemory, dest := init, slowPath := true,
          lead_in := lead_in, lead_out := lead_out,
          aligned_pos := aligned_pos, aligned_count := aligned_count,
          scratchAllocated := false, scratchReleased := false,
          ioAttempted := false, copyPerformed := false, copyRes := 0,
          block_size_after := dev.block_size }
      else if readOk = false then
        { err := ioError, dest := init, slowPath := true,
          lead_in := lead_in, lead_out := lead_out,
          aligned_pos := aligned_pos, aligned_count := aligned_count,
          scratchAllocated := true, scratchReleased := true,
          ioAttempted := true, copyPerformed := false, copyRes := 0,
          block_size_after := dev.block_size }
      else
        let scratch : Nat → Nat := fun i =>
          if i < aligned_count then dev.content (aligned_pos + i)
          else heapJunk i
        let res := min in_count in_buf_len
        { err := 0,
          dest := fun i => if i < res then scratch i else init i,
          slowPath := true,
          lead_in := lead_in, lead_out := lead_out,
          aligned_pos := aligned_pos, aligned_count := aligned_count,
          scratchAllocated := true, scratchReleased := true,
          ioAttempted := true, copyPerformed := true, copyRes := res,
          block_size_after := dev.block_size }
    else
      if readOk = false then
        { err := ioError, dest := init, slowPath := false,
          lead_in := lead_in, lead_out := lead_out,
          aligned_pos := in_pos, aligned_count := in_count,
          scratchAllocated := false, scratchReleased := false,
          ioAttempted := true, copyPerformed := false, copyRes := 0,
          block_size_after := dev.block_size }
      else
        { err := 0,
          dest := fun i =>
            if i < in_buf_len then dev.content (in_pos + i) else init i,
          slowPath := false,
          lead_in := lead_in, lead_out := lead_out,
          aligned_pos := in_pos, aligned_count := in_count,
          scratchAllocated := false, scratchReleased := false,
          ioAttempted := true, copyPerformed := false, copyRes := 0,
          block_size_after := dev.block_size }

/-- Result of one `lvm2_unix_device_create` call: the errno, the handle
returned through `*out_dev` (if any), whether `storage->open` was
attempted, the number of `storage->close` calls made, and whether the
storage object is still open when the call returns. -/
structure CreateOutcome where
  err : Nat
  dev : Option lvm2_device
  openAttempted : Bool
  closeCalls : Nat
  storageOpenAtReturn : Bool

/-- `lvm2_unix_device_create(storage, media, out_dev)` from
`lvm2_osal_iokit.cpp` lines 107-149.

* `mediaBlockSize` is `media->getPreferredBlockSize()` (a `UInt64`);
  `content` is the byte stream the storage/media pair serves.
* `openOk` decides `storage->open(storage, 0, kIOStorageAccessReader)`;
  `allocOk` decides the `lvm2_malloc` of the handle record.
* `dev->block_size = (u32) mediaBlockSize` truncates to 32 bits, hence
  the `% 2^32` (the guard makes it exact on the path that stores it). -/
def lvm2_unix_device_create (mediaBlockSize : Nat) (content : Nat → Nat)
    (openOk allocOk : Bool) : CreateOutcome :=
  if U32_MAX < mediaBlockSize then
    { err := invalidBlockSize, dev := none, openAttempted := false,
      closeCalls := 0, storageOpenAtReturn := false }
  else if openOk = false then
    { err := accessDenied, dev := none, openAttempted := true,
      closeCalls := 0, storageOpenAtReturn := false }
  else if allocOk = false then
    { err := outOfMemory, dev := none, openAttempted := true,
      closeCalls := 1, storageOpenAtReturn := false }
  else
    { err := 0,
      dev := some { block_size := mediaBlockSize % 2 ^ 32,
                    content := content },
      openAttempted := true, closeCalls := 0,
      storageOpenAtReturn := true }

/-- `lvm2_free(ptr, size)` from lines 44-48: `IOFree(*ptr, size)` followed
by `*ptr = NULL`. The caller's pointer cell is an `Option α`; the `Bool`
records that `IOFree` ran on the old value. -/
def lvm2_free {α : Type} (_ptr : Option α) : Option α × Bool :=
  (none, true)

/-- `struct lvm2_io_buffer` (lines 52-54): wraps an
`IOBufferMemoryDescriptor`; we keep its capacity. -/
structure lvm2_io_buffer where
  capacity : Nat

/-- Result of `lvm2_io_buffer_destroy`: the caller's pointer cell after
the call and whether the wrapped descriptor was released. -/
structure DestroyBufOutcome where
  ptr : Option lvm2_io_buffer
  descriptorReleased : Bool

/-- `lvm2_io_buffer_destroy(buf)` from lines 95-99:
`(*buf)->buffer->release()` then `lvm2_free((void**) buf, ...)`. -/
def lvm2_io_buffer_destroy (buf : Option lvm2_io_buffer) :
    DestroyBufOutcome :=
  { ptr := (lvm2_free buf).1, descriptorReleased := true }

/-- Result of `lvm2_unix_device_destroy`: the caller's pointer cell after
the call, the number of `storage->close` calls, and the `block_size`
field of the record at the moment it is freed. -/
structure DestroyDevOutcome where
  ptr : Option lvm2_device
  closeCalls : Nat
  block_size_at_free : Nat

/-- `lvm2_unix_device_destroy(dev)` from lines 151-156:
`(*dev)->storage->close((*dev)->storage)` then
`lvm2_free((void**) dev, ...)`. The function never writes to any field
of the record; `block_size_at_free` is the field's value when `IOFree`
runs. -/
def lvm2_unix_device_destroy (dev : lvm2_device) : DestroyDevOutcome :=
  { ptr := (lvm2_free (some dev)).1, closeCalls := 1,
    block_size_at_free := dev.block_size }

/-- A device serving the identity-mod-256 byte stream, used for concrete
evaluations. -/
def testDev (bs : Nat) : lvm2_device :=
  { block_size := bs, content := fun i => i % 256 }

/-- All-zero initial destination-buffer contents. -/
def zeroBytes : Nat → Nat := fun _ => 0

/-- Helper: `lvm2_device_read` never writes to `dev->block_size`; the
field's value after the call equals its value before on every branch. -/
theorem read_block_size_after (dev : lvm2_device)
    (in_pos in_count in_buf_len : Nat) (init : Nat → Nat)
    (junk_count : Nat) (heapJunk : Nat → Nat) (allocOk readOk : Bool) :
    (lvm2_device_read dev in_pos in_count in_buf_len init junk_count
      heapJunk allocOk readOk).block_size_after = dev.block_size := by
  simp only [lvm2_device_read]
  split_ifs <;> rfl

/-- C1: the spec claims that on success the destination holds exactly the
`count` bytes at byte offset `position`, the slow path copying from
offset `lead_in` of the scratch buffer. The code instead copies from
offset `0` of the scratch buffer (`writeBytes(0, buf->getBytesNoCopy(),
in_count)`, lines 221-222): with `block_size = 2`, `position = 1`,
`count = 1` (and the uninitialized `count` local happening to equal 1),
the call succeeds but the destination receives the device byte at offset
0 (`= 0`) instead of the requested byte at offset 1 (`= 1`). -/
theorem read_success_delivers_wrong_bytes_when_unaligned :
    (lvm2_device_read (testDev 2) 1 1 1 zeroBytes 1 zeroBytes
      true true).err = 0 ∧
    (lvm2_device_read (testDev 2) 1 1 1 zeroBytes 1 zeroBytes
      true true).dest 0 = 0 ∧
    (testDev 2).content 1 = 1 ∧
    (lvm2_device_read (testDev 2) 1 1 1 zeroBytes 1 zeroBytes
      true true).dest 0 ≠ (testDev 2).content 1 := by
  refine ⟨rfl, rfl, rfl, ?_⟩
  decide

/-- C2: for `block_size = 512`, `position = 513`, `count = 1`, capacity 1,
the spec claims `aligned_count = 512` and a copy of 1 byte from scratch
offset 1. The code computes `aligned_count = lead_in + count + lead_out`
from the uninitialized local `count` (line 187), giving `511 +
junk_count` (so 511 when the junk value is 0, 518 when it is 7, never
the claimed 512 unless the junk happens to be 1), and its copy takes the
byte at scratch offset 0 — device offset 512, value 0 — instead of the
byte at scratch offset 1 — device offset 513, value 1. `lead_in = 1` and
`aligned_pos = 512` do match the claim. -/
theorem read_unaligned_single_byte_diverges :
    (lvm2_device_read (testDev 512) 513 1 1 zeroBytes 0 zeroBytes
      true true).lead_in = 1 ∧
    (lvm2_device_read (testDev 512) 513 1 1 zeroBytes 0 zeroBytes
      true true).aligned_pos = 512 ∧
    (lvm2_device_read (testDev 512) 513 1 1 zeroBytes 0 zeroBytes
      true true).slowPath = true ∧
    (lvm2_device_read (testDev 512) 513 1 1 zeroBytes 0 zeroBytes
      true true).aligned_count = 511 ∧
    (lvm2_device_read (testDev 512) 513 1 1 zeroBytes 7 zeroBytes
      true true).aligned_count = 518 ∧
    (lvm2_device_read (testDev 512) 513 1 1 zeroBytes 0 zeroBytes
      true true).dest 0 = 0 ∧
    (testDev 512).content 513 = 1 := by
  refine ⟨rfl, rfl, rfl, rfl, rfl, rfl, rfl⟩

/-- C3: the code computes `lead_out = block_size - ((lead_in + count) mod
block_size)` with no outer reduction mod `block_size`, so `lead_out`
ranges over `[1, block_size]`, never 0. For the claimed boundary case
`position = 0`, `count = block_size = 512`, capacity 512, the code gets
`lead_in = 0` but `lead_out = 512` (not 0), so the `lead_out != 0` test
at line 179 sends even this fully aligned request down the slow path;
the fast path of lines 208-212 is unreachable whenever
`block_size > 0`. -/
theorem read_aligned_request_takes_slow_path :
    (lvm2_device_read (testDev 512) 0 512 512 zeroBytes 0 zeroBytes
      true true).lead_in = 0 ∧
    (lvm2_device_read (testDev 512) 0 512 512 zeroBytes 0 zeroBytes
      true true).lead_out = 512 ∧
    (lvm2_device_read (testDev 512) 0 512 512 zeroBytes 0 zeroBytes
      true true).slowPath = true := by
  refine ⟨rfl, rfl, rfl⟩

/-- C5: a `count` above `SSIZE_MAX` is rejected with `ERANGE` by the
check at lines 172-173, before any device I/O, before any allocation,
and with the destination buffer untouched. -/
theorem read_oversize_rejected_before_io (dev : lvm2_device)
    (in_pos in_count in_buf_len : Nat) (init : Nat → Nat)
    (junk_count : Nat) (heapJunk : Nat → Nat) (allocOk readOk : Bool)
    (h : SSIZE_MAX < in_count) :
    (lvm2_device_read dev in_pos in_count in_buf_len init junk_count
      heapJunk allocOk readOk).err = rangeError ∧
    (lvm2_device_read dev in_pos in_count in_buf_len init junk_count
      heapJunk allocOk readOk).ioAttempted = false ∧
    (lvm2_device_read dev in_pos in_count in_buf_len init junk_count
      heapJunk allocOk readOk).scratchAllocated = false ∧
    (lvm2_device_read dev in_pos in_count in_buf_len init junk_count
      heapJunk allocOk readOk).dest = init := by
  simp [lvm2_device_read, h]

/-- Witness for C5 at the concrete oversize count `2 ^ 63`. -/
theorem read_oversize_rejected_before_io_witness :
    SSIZE_MAX < 2 ^ 63 ∧
    (lvm2_device_read (testDev 512) 0 (2 ^ 63) 1 zeroBytes 0 zeroBytes
      true true).err = rangeError ∧
    (lvm2_device_read (testDev 512) 0 (2 ^ 63) 1 zeroBytes 0 zeroBytes
      true true).ioAttempted = false :=
  ⟨by decide,
    (read_oversize_rejected_before_io (testDev 512) 0 (2 ^ 63) 1
      zeroBytes 0 zeroBytes true true (by decide)).1,
    (read_oversize_rejected_before_io (testDev 512) 0 (2 ^ 63) 1
      zeroBytes 0 zeroBytes true true (by decide)).2.1⟩

/-- C4: scratch-buffer accounting of the slow path. The scratch buffer
is released exactly when it was allocated (zero net allocations on every
path); when its allocation fails the call returns `ENOMEM` at lines
197-202 with no device I/O attempted and the destination untouched; when
the device read fails the scratch buffer is released (lines 234-236)
before `EIO` is returned; and on success it is released before the call
returns 0. -/
theorem read_scratch_released_on_every_path (dev : lvm2_device)
    (in_pos in_count in_buf_len : Nat) (init : Nat → Nat)
    (junk_count : Nat) (heapJunk : Nat → Nat) (allocOk readOk : Bool)
    (o : ReadOutcome)
    (ho : o = lvm2_device_read dev in_pos in_count in_buf_len init
      junk_count heapJunk allocOk readOk) :
    o.scratchReleased = o.scratchAllocated ∧
    (o.slowPath = true → allocOk = false →
      o.err = outOfMemory ∧ o.ioAttempted = false ∧
      o.scratchAllocated = false ∧ o.dest = init) ∧
    (o.slowPath = true → allocOk = true → readOk = false →
      o.err = ioError ∧ o.scratchReleased = true) ∧
    (o.slowPath = true → allocOk = true → readOk = true →
      o.err = 0 ∧ o.scratchReleased = true) := by
  subst ho
  simp only [lvm2_device_read]
  split_ifs <;> simp_all

/-- Witness for C4 at `block_size = 512`, `position = 513`, `count = 1`
with the scratch allocation made to fail. -/
theorem read_scratch_released_on_every_path_witness :
    (lvm2_device_read (testDev 512) 513 1 1 zeroBytes 0 zeroBytes
      false true).err = outOfMemory ∧
    (lvm2_device_read (testDev 512) 513 1 1 zeroBytes 0 zeroBytes
      false true).ioAttempted = false ∧
    (lvm2_device_read (testDev 512) 513 1 1 zeroBytes 0 zeroBytes
      false true).scratchAllocated = false := by
  have h := read_scratch_released_on_every_path (testDev 512) 513 1 1
    zeroBytes 0 zeroBytes false true
    (lvm2_device_read (testDev 512) 513 1 1 zeroBytes 0 zeroBytes
      false true) rfl
  exact ⟨(h.2.1 (by decide) rfl).1, (h.2.1 (by decide) rfl).2.1,
    (h.2.1 (by decide) rfl).2.2.1⟩

/-- C6: in `lvm2_unix_device_create`, when the storage open succeeds and
the handle-record allocation then fails, `storage->close(storage)` runs
at line 143 before `ENOMEM` is returned; and on every return, either a
handle owning the open storage is produced or the storage is not left
open. -/
theorem create_closes_storage_on_alloc_failure (mbs : Nat)
    (content : Nat → Nat) (openOk allocOk : Bool) (o : CreateOutcome)
    (ho : o = lvm2_unix_device_create mbs content openOk allocOk) :
    (¬ U32_MAX < mbs → openOk = true → allocOk = false →
      o.err = outOfMemory ∧ o.closeCalls = 1 ∧
      o.storageOpenAtReturn = false ∧ o.dev = none) ∧
    ((o.err = 0 ∧ o.dev.isSome = true ∧ o.storageOpenAtReturn = true) ∨
      (o.storageOpenAtReturn = false ∧ o.dev = none)) := by
  subst ho
  simp only [lvm2_unix_device_create]
  split_ifs <;> simp_all

/-- Witness for C6 at media block size 512, open succeeding, allocation
failing. -/
theorem create_closes_storage_on_alloc_failure_witness :
    (lvm2_unix_device_create 512 zeroBytes true false).err =
      outOfMemory ∧
    (lvm2_unix_device_create 512 zeroBytes true false).closeCalls = 1 ∧
    (lvm2_unix_device_create 512 zeroBytes true false).storageOpenAtReturn = false := by
  have h := create_closes_storage_on_alloc_failure 512 zeroBytes true
    false (lvm2_unix_device_create 512 zeroBytes true false) rfl
  exact ⟨(h.1 (by decide) rfl rfl).1, (h.1 (by decide) rfl rfl).2.1,
    (h.1 (by decide) rfl rfl).2.2.1⟩

/-- Counterexample to C7: `lvm2_unix_device_create` never checks that the
media's preferred block size is nonzero — only that it is at most
`U32_MAX` (line 115). A media reporting a preferred block size of 0
yields a successful create whose handle has `block_size = 0`, so the
claimed invariant `block_size > 0` does not hold at creation. -/
theorem create_accepts_zero_block_size :
    (lvm2_unix_device_create 0 zeroBytes true true).err = 0 ∧
    ((lvm2_unix_device_create 0 zeroBytes true true).dev.elim 1
      fun d => d.block_size) = 0 :=
  ⟨rfl, rfl⟩

/-- C7 as amended: when the media's preferred block size is nonzero (and
within `U32_MAX`), any handle returned by `lvm2_unix_device_create` has
`block_size` equal to that size, hence positive, and no subsequent
operation modifies it: `lvm2_device_read` leaves the field unchanged on
every branch, and `lvm2_unix_device_destroy` frees the record with the
field still at its creation value. -/
theorem create_block_size_positive_and_stable (mbs : Nat)
    (content : Nat → Nat) (openOk allocOk : Bool) (d : lvm2_device)
    (hpos : 0 < mbs) (hle : mbs ≤ U32_MAX)
    (hd : (lvm2_unix_device_create mbs content openOk allocOk).dev =
      some d) :
    d.block_size = mbs ∧ 0 < d.block_size ∧
    (∀ in_pos in_count in_buf_len init junk_count heapJunk aOk rOk,
      (lvm2_device_read d in_pos in_count in_buf_len init junk_count
        heapJunk aOk rOk).block_size_after = d.block_size) ∧
    (lvm2_unix_device_destroy d).block_size_at_free = d.block_size := by
  have h1 : ¬ U32_MAX < mbs := Nat.not_lt.mpr hle
  have hbs : d.block_size = mbs := by
    cases openOk with
    | false => simp [lvm2_unix_device_create, h1] at hd
    | true =>
      cases allocOk with
      | false => simp [lvm2_unix_device_create, h1] at hd
      | true =>
        simp only [lvm2_unix_device_create, h1, if_false,
          Bool.true_eq_false, if_neg, Option.some.injEq,
          if_true] at hd
        have : mbs % 2 ^ 32 = mbs :=
          Nat.mod_eq_of_lt (by unfold U32_MAX at hle; omega)
        simp_all [← hd]
  refine ⟨hbs, by omega, ?_, rfl⟩
  intro in_pos in_count in_buf_len init junk_count heapJunk aOk rOk
  exact read_block_size_after d in_pos in_count in_buf_len init
    junk_count heapJunk aOk rOk

/-- Witness for C7 (amended) at media block size 512. -/
theorem create_block_size_positive_and_stable_witness :
    (lvm2_unix_device_create 512 zeroBytes true true).dev =
      some { block_size := 512, content := zeroBytes } ∧
    0 < ({ block_size := 512, content := zeroBytes } :
      lvm2_device).block_size := by
  refine ⟨rfl, ?_⟩
  exact (create_block_size_positive_and_stable 512 zeroBytes true true
    { block_size := 512, content := zeroBytes } (by decide) (by decide)
    rfl).2.1

/-- C8: a media preferred block size above `U32_MAX` makes
`lvm2_unix_device_create` fail with `EINVAL` at lines 115-119, with the
storage never opened, no close issued, and no handle returned. -/
theorem create_rejects_oversize_block_size (mbs : Nat)
    (content : Nat → Nat) (openOk allocOk : Bool)
    (h : U32_MAX < mbs) :
    (lvm2_unix_device_create mbs content openOk allocOk).err =
      invalidBlockSize ∧
    (lvm2_unix_device_create mbs content openOk allocOk).openAttempted = false ∧
    (lvm2_unix_device_create mbs content openOk allocOk).closeCalls = 0 ∧
    (lvm2_unix_device_create mbs content openOk allocOk).dev = none := by
  simp [lvm2_unix_device_create, h]

/-- Witness for C8 at media block size `2 ^ 32`. -/
theorem create_rejects_oversize_block_size_witness :
    U32_MAX < 2 ^ 32 ∧
    (lvm2_unix_device_create (2 ^ 32) zeroBytes true true).err =
      invalidBlockSize ∧
    (lvm2_unix_device_create (2 ^ 32) zeroBytes true true).openAttempted = false :=
  ⟨by decide,
    (create_rejects_oversize_block_size (2 ^ 32) zeroBytes true true
      (by decide)).1,
    (create_rejects_oversize_block_size (2 ^ 32) zeroBytes true true
      (by decide)).2.1⟩

/-- C9: on the slow path, when `writeBytes` transfers fewer than
`in_count` bytes (here because the destination descriptor is shorter
than `in_count`, which also forces the slow path via the
`in_count != getLength()` test), the code only logs a warning (lines
223-228) and still sets `err = 0`: a short copy is never surfaced as an
error. -/
theorem read_short_copy_reports_success (dev : lvm2_device)
    (in_pos in_count in_buf_len : Nat) (init : Nat → Nat)
    (junk_count : Nat) (heapJunk : Nat → Nat)
    (_hbs : 0 < dev.block_size) (hc : in_count ≤ SSIZE_MAX)
    (hshort : in_buf_len < in_count) :
    (lvm2_device_read dev in_pos in_count in_buf_len init junk_count
      heapJunk true true).slowPath = true ∧
    (lvm2_device_read dev in_pos in_count in_buf_len init junk_count
      heapJunk true true).copyPerformed = true ∧
    (lvm2_device_read dev in_pos in_count in_buf_len init junk_count
      heapJunk true true).copyRes = in_buf_len ∧
    (lvm2_device_read dev in_pos in_count in_buf_len init junk_count
      heapJunk true true).copyRes < in_count ∧
    (lvm2_device_read dev in_pos in_count in_buf_len init junk_count
      heapJunk true true).err = 0 := by
  have h1 : ¬ SSIZE_MAX < in_count := Nat.not_lt.mpr hc
  have h3 : in_count ≠ in_buf_len := (Nat.ne_of_lt hshort).symm
  have hmin : min in_count in_buf_len = in_buf_len :=
    Nat.min_eq_right (Nat.le_of_lt hshort)
  simp [lvm2_device_read, h1, h3, hmin, hshort]

/-- Witness for C9: `block_size = 512`, `count = 2`, destination
descriptor length 1. -/
theorem read_short_copy_reports_success_witness :
    (lvm2_device_read (testDev 512) 513 2 1 zeroBytes 0 zeroBytes
      true true).copyRes = 1 ∧
    (lvm2_device_read (testDev 512) 513 2 1 zeroBytes 0 zeroBytes
      true true).err = 0 := by
  have h := read_short_copy_reports_success (testDev 512) 513 2 1
    zeroBytes 0 zeroBytes (by decide) (by decide) (by decide)
  exact ⟨h.2.2.1, h.2.2.2.2⟩

/-- C10: each public destroy/release operation nulls the caller's
pointer cell after releasing the resource: `lvm2_free` stores `NULL`
through its pointer argument after `IOFree`; `lvm2_io_buffer_destroy`
releases the wrapped descriptor and then nulls the cell via `lvm2_free`;
`lvm2_unix_device_destroy` closes the storage (exactly one close) and
then nulls the cell via `lvm2_free`. -/
theorem destroy_nulls_caller_pointer (α : Type) (p : Option α)
    (b : Option lvm2_io_buffer) (d : lvm2_device) :
    (lvm2_free p).1 = none ∧ (lvm2_free p).2 = true ∧
    (lvm2_io_buffer_destroy b).ptr = none ∧
    (lvm2_io_buffer_destroy b).descriptorReleased = true ∧
    (lvm2_unix_device_destroy d).ptr = none ∧
    (lvm2_unix_device_destroy d).closeCalls = 1 :=
  ⟨rfl, rfl, rfl, rfl, rfl, rfl⟩

end LVM2
